import Mathlib

/-!
Verification of the Assest_Manager patient document portal.

The server side (Express routes in the routes module, JWT auth in jwtAuth,
the Drizzle schema in shared/schema) is shallowly embedded below: each HTTP
handler becomes a Lean function from a server state and a request to a
response and a new server state.  The storage layer (storage.ts),
the object-store client (objectStorage.ts) and the ACL module
(objectAcl.ts) are not part of the supplied sources; where a definition
comes from those files it is modelled from the specification and marked so
in its doc comment.
-/

namespace AssetManager

/-- A row of the `users` table (shared/schema): id, email, name fields,
password hash.  Timestamps are irrelevant to the claims and omitted. -/
structure User where
  id : String
  email : String
  firstName : String
  lastName : String
  passwordHash : String
deriving DecidableEq, Repr

/-- A row of the `documents` table (shared/schema): id, stored filename,
original filename, storage path, size, mime type, category, owning user id.
The creation timestamp is irrelevant to the claims and omitted. -/
structure Document where
  id : String
  filename : String
  originalFilename : String
  filepath : String
  filesize : Nat
  mimetype : String
  category : String
  userId : String
deriving DecidableEq, Repr

/-- An object held by the object store: a path and the stored bytes. -/
structure StoredObject where
  path : String
  bytes : List Nat
deriving DecidableEq, Repr

/-- A token issued by `generateToken` (jwtAuth).  JWT signing itself is a
spec non-goal ("standard signed-token issuance/verification"); a token is
modelled as an unforgeable record of the string handed to the client and
the claims signed into it, and `verifyToken` as recognising exactly the
tokens the server issued. -/
structure IssuedToken where
  tok : String
  userId : String
  email : String
deriving DecidableEq, Repr

/-- The full server state: the two relational tables, the object store
contents, and the set of issued tokens. -/
structure ServerState where
  users : List User
  documents : List Document
  objects : List StoredObject
  issued : List IssuedToken
deriving DecidableEq, Repr

/-- An HTTP response, carrying only the observables the claims mention:
status code, JSON message, Content-Type and Content-Disposition headers,
streamed file bytes, a document list body, and a user body. -/
structure Response where
  status : Nat
  message : Option String
  contentType : Option String
  contentDisposition : Option String
  fileBytes : Option (List Nat)
  docs : Option (List Document)
  userBody : Option User
deriving DecidableEq, Repr

/-- An error/plain-message response: only status and message are set. -/
def errResp (code : Nat) (msg : String) : Response :=
  ⟨code, some msg, none, none, none, none, none⟩

/-- The multipart file seen by multer: original client filename, declared
MIME type, size in bytes, and the buffered content. -/
structure UploadFile where
  originalname : String
  mimetype : String
  size : Nat
  buffer : List Nat
deriving DecidableEq, Repr

/-- Index of the last occurrence of a dot in a character list, if any. -/
def lastDotIndex : List Char → Option Nat
  | [] => none
  | c :: cs =>
    match lastDotIndex cs with
    | some i => some (i + 1)
    | none => if c = '.' then some 0 else none

/-- Node `path.extname` restricted to bare filenames: the suffix from the
last dot, except that a dot at position 0 (a dotfile) yields the empty
string. -/
def extname (name : String) : String :=
  match lastDotIndex name.data with
  | none => ""
  | some 0 => ""
  | some i => ⟨name.data.drop i⟩

/-- Bytes left unescaped by JavaScript `encodeURIComponent`:
A-Z a-z 0-9 and - _ . ! ~ * apostrophe ( ). -/
def isUnreservedByte (b : Nat) : Bool :=
  (65 ≤ b && b ≤ 90) || (97 ≤ b && b ≤ 122) || (48 ≤ b && b ≤ 57) ||
  b == 45 || b == 95 || b == 46 || b == 33 || b == 126 || b == 42 ||
  b == 39 || b == 40 || b == 41

/-- Uppercase hexadecimal digit for a value below 16. -/
def hexDigit (n : Nat) : Char :=
  if n < 10 then Char.ofNat (48 + n) else Char.ofNat (55 + n)

/-- Percent-encoding of one byte: a percent sign and two hex digits. -/
def percentEncodeByte (b : Nat) : List Char :=
  [Char.ofNat 37, hexDigit (b / 16), hexDigit (b % 16)]

/-- The UTF-8 encoding of one code point, as byte values. -/
def utf8Bytes (c : Char) : List Nat :=
  let n := c.toNat
  if n < 128 then [n]
  else if n < 2048 then [192 + n / 64, 128 + n % 64]
  else if n < 65536 then
    [224 + n / 4096, 128 + n / 64 % 64, 128 + n % 64]
  else
    [240 + n / 262144, 128 + n / 4096 % 64, 128 + n / 64 % 64, 128 + n % 64]

/-- Percent-encode a byte sequence, keeping unreserved bytes. -/
def encodeBytes (bs : List Nat) : List Char :=
  (bs.map (fun b =>
    if isUnreservedByte b then [Char.ofNat b] else percentEncodeByte b)).flatten

/-- JavaScript `encodeURIComponent`: UTF-8 encode, keep unreserved bytes,
percent-encode the rest. -/
def encodeURIComponent (s : String) : String :=
  ⟨(s.data.map (fun c => encodeBytes (utf8Bytes c))).flatten⟩

/-- JavaScript `toLowerCase` on the extension strings in play: lowercase
every character. -/
def lowerString (s : String) : String :=
  ⟨s.data.map Char.toLower⟩

/-- multer `fileFilter` from the routes module: accept exactly when the
declared MIME type is application/pdf and the lowercased filename
extension is ".pdf". -/
def fileFilter (f : UploadFile) : Bool :=
  f.mimetype == "application/pdf" && lowerString (extname f.originalname) == ".pdf"

/-- multer `limits.fileSize` from the routes module: 10 * 1024 * 1024. -/
def maxFileSize : Nat := 10 * 1024 * 1024

/-- Modelled from the spec: `storage.getDocument` (storage.ts is not among
the supplied sources) — look the document row up by primary key. -/
def getDocument (docs : List Document) (docId : String) : Option Document :=
  docs.find? (fun d => d.id == docId)

/-- Modelled from the spec: `storage.getDocumentsByUser` (storage.ts is not
among the supplied sources) — per-owner visibility, the rows whose userId
is the given user. -/
def getDocumentsByUser (docs : List Document) (uid : String) : List Document :=
  docs.filter (fun d => d.userId == uid)

/-- Modelled from the spec: `storage.deleteDocument` (storage.ts is not
among the supplied sources) — remove the row with the given id, reporting
whether a row was removed. -/
def deleteDocumentRow (docs : List Document) (docId : String) :
    Bool × List Document :=
  (docs.any (fun d => d.id == docId), docs.filter (fun d => !(d.id == docId)))

/-- Modelled from the spec: `storage.getUser` (storage.ts is not among the
supplied sources) — look the user row up by primary key. -/
def findUser (us : List User) (uid : String) : Option User :=
  us.find? (fun u => u.id == uid)

/-- Modelled from the spec: `storage.getUserByEmail` (storage.ts is not
among the supplied sources) — look the user row up by email. -/
def findUserByEmail (us : List User) (email : String) : Option User :=
  us.find? (fun u => u.email == email)

/-- Modelled from the spec: object-store lookup behind
`ObjectStorageService.getObjectEntityFile` (objectStorage.ts is not among
the supplied sources) — the bytes stored at a path, if any. -/
def lookupObject (objs : List StoredObject) (p : String) : Option (List Nat) :=
  (objs.find? (fun o => o.path == p)).map (fun o => o.bytes)

/-- Modelled from the spec: `ObjectStorageService.uploadBuffer`
(objectStorage.ts is not among the supplied sources) — store bytes at a
path, replacing any previous object there. -/
def putObject (objs : List StoredObject) (p : String) (bs : List Nat) :
    List StoredObject :=
  objs.filter (fun o => !(o.path == p)) ++ [⟨p, bs⟩]

/-- Modelled from the spec: `ObjectStorageService.deleteObject`
(objectStorage.ts is not among the supplied sources) — remove the object at
a path. -/
def deleteObject (objs : List StoredObject) (p : String) : List StoredObject :=
  objs.filter (fun o => !(o.path == p))

/-- Modelled from the spec: bcrypt password hashing (a spec non-goal,
"textbook token issuance/verification") — an abstract injective digest. -/
def hashPw (pw : String) : String :=
  "bcrypt-digest:" ++ pw

/-- Environment of one request: the fresh identifiers the runtime draws
(`randomUUID`, database-generated ids, the signed token string) and whether
the object-store write succeeds. -/
structure Env where
  freshObjectId : String
  freshDocId : String
  freshUserId : String
  freshTok : String
  storeOk : Bool
deriving DecidableEq, Repr

/-- `isAuthenticated` (jwtAuth): no bearer header is 401 Unauthorized, an
unrecognised token is 401 Invalid or expired token, otherwise the request
proceeds with the token's userId as `req.user.claims.sub`. -/
def authCheck (s : ServerState) (tok : Option String) :
    Except Response String :=
  match tok with
  | none => .error (errResp 401 "Unauthorized")
  | some t =>
    match s.issued.find? (fun it => it.tok == t) with
    | none => .error (errResp 401 "Invalid or expired token")
    | some it => .ok it.userId

/-- GET /api/documents handler body (routes module): the authenticated
user's documents as JSON. -/
def listDocsHandler (s : ServerState) (uid : String) : Response :=
  ⟨200, none, none, none, none, some (getDocumentsByUser s.documents uid), none⟩

/-- GET /api/documents/:id/download handler body (routes module): 404 when
the row is missing, 403 when the requester is not the owner, 404 when the
backing object is gone (ObjectNotFoundError), else stream the bytes with
Content-Type application/pdf and an attachment Content-Disposition carrying
the URI-encoded original filename. -/
def downloadHandler (s : ServerState) (uid : String) (docId : String) :
    Response :=
  match getDocument s.documents docId with
  | none => errResp 404 "Document not found"
  | some d =>
    if d.userId ≠ uid then errResp 403 "Access denied"
    else
      match lookupObject s.objects d.filepath with
      | none => errResp 404 "File not found on server"
      | some bs =>
        ⟨200, none, some "application/pdf",
          some ("attachment; filename=\"" ++
            encodeURIComponent d.originalFilename ++ "\""),
          some bs, none, none⟩

/-- GET /api/documents/:id/preview handler body (routes module): as
download but with an inline Content-Disposition. -/
def previewHandler (s : ServerState) (uid : String) (docId : String) :
    Response :=
  match getDocument s.documents docId with
  | none => errResp 404 "Document not found"
  | some d =>
    if d.userId ≠ uid then errResp 403 "Access denied"
    else
      match lookupObject s.objects d.filepath with
      | none => errResp 404 "File not found on server"
      | some bs =>
        ⟨200, none, some "application/pdf", some "inline", some bs, none, none⟩

/-- POST /api/documents/upload (routes module), multer stage included:
multer's fileFilter rejects non-PDF uploads before the size limit can
trigger; an accepted file larger than the limit raises LIMIT_FILE_SIZE;
the handler body then requires a file, defaults a falsy category to
"other", writes the buffer to uploads/(uuid).pdf, and only after a
successful store inserts the document row and answers 201.  The error
middleware maps the multer errors to the two 400 messages, and the
handler's catch maps a failed store to 500. -/
def uploadHandler (s : ServerState) (uid : String) (file : Option UploadFile)
    (category : Option String) (env : Env) : Response × ServerState :=
  match file with
  | none => (errResp 400 "No file uploaded", s)
  | some f =>
    if !fileFilter f then (errResp 400 "Only PDF files are allowed", s)
    else if maxFileSize < f.size then
      (errResp 400 "File size must be less than 10MB", s)
    else if !env.storeOk then (errResp 500 "Failed to upload document", s)
    else
      let cat :=
        match category with
        | none => "other"
        | some c => if c = "" then "other" else c
      let objectPath := "uploads/" ++ env.freshObjectId ++ ".pdf"
      let newDoc : Document :=
        ⟨env.freshDocId, env.freshObjectId ++ ".pdf", f.originalname.take 255,
          objectPath, f.size, "application/pdf", cat, uid⟩
      (⟨201, none, none, none, none, none, none⟩,
        ⟨s.users, s.documents ++ [newDoc],
          putObject s.objects objectPath f.buffer, s.issued⟩)

/-- DELETE /api/documents/:id handler body (routes module): 404 when the
row is missing, 403 when the requester is not the owner, else delete the
backing object, delete the row, and answer 200 when a row was removed. -/
def deleteHandler (s : ServerState) (uid : String) (docId : String) :
    Response × ServerState :=
  match getDocument s.documents docId with
  | none => (errResp 404 "Document not found", s)
  | some d =>
    if d.userId ≠ uid then (errResp 403 "Access denied", s)
    else
      let objs := deleteObject s.objects d.filepath
      let del := deleteDocumentRow s.documents docId
      if del.1 then
        (errResp 200 "Document deleted successfully",
          ⟨s.users, del.2, objs, s.issued⟩)
      else
        (errResp 500 "Failed to delete document",
          ⟨s.users, del.2, objs, s.issued⟩)

/-- POST /api/signup (jwtAuth): missing email or password is 400, an
existing email is 400, else insert the user (storage.upsertUser, modelled
from the spec as an insert with a fresh id) and answer 201 with a token
for the new user. -/
def signupHandler (s : ServerState) (email pw fn ln : String) (env : Env) :
    Response × ServerState :=
  if email = "" ∨ pw = "" then
    (errResp 400 "Email and password required", s)
  else
    match findUserByEmail s.users email with
    | some _ => (errResp 400 "User already exists", s)
    | none =>
      let u : User := ⟨env.freshUserId, email, fn, ln, hashPw pw⟩
      (⟨201, none, none, none, none, none, some u⟩,
        ⟨s.users ++ [u], s.documents, s.objects,
          s.issued ++ [⟨env.freshTok, u.id, email⟩]⟩)

/-- POST /api/login (jwtAuth): missing email or password is 400, an
unknown email, empty stored hash or wrong password is 401, else answer 200
with a fresh token for the user. -/
def loginHandler (s : ServerState) (email pw : String) (env : Env) :
    Response × ServerState :=
  if email = "" ∨ pw = "" then
    (errResp 400 "Email and password required", s)
  else
    match findUserByEmail s.users email with
    | none => (errResp 401 "Invalid credentials", s)
    | some u =>
      if u.passwordHash = "" then (errResp 401 "Invalid credentials", s)
      else if hashPw pw ≠ u.passwordHash then
        (errResp 401 "Invalid credentials", s)
      else
        (⟨200, none, none, none, none, none, some u⟩,
          ⟨s.users, s.documents, s.objects,
            s.issued ++ [⟨env.freshTok, u.id, u.email⟩]⟩)

/-- One request to the API: auth endpoints and the five document
endpoints, each carrying the optional bearer token where the route is
guarded by isAuthenticated. -/
inductive Request where
  | signup (email pw fn ln : String)
  | login (email pw : String)
  | logout
  | getAuthUser (tok : Option String)
  | listDocs (tok : Option String)
  | uploadDoc (tok : Option String) (file : Option UploadFile)
      (category : Option String)
  | downloadDoc (tok : Option String) (docId : String)
  | previewDoc (tok : Option String) (docId : String)
  | deleteDoc (tok : Option String) (docId : String)
deriving DecidableEq, Repr

/-- The whole API as one step function: route the request through
setupAuth's endpoints or isAuthenticated plus the handler bodies from the
routes module, returning the response and the next server state. -/
def step (s : ServerState) (req : Request) (env : Env) :
    Response × ServerState :=
  match req with
  | .signup e p fn ln => signupHandler s e p fn ln env
  | .login e p => loginHandler s e p env
  | .logout => (errResp 200 "Logged out successfully", s)
  | .getAuthUser tok =>
    match authCheck s tok with
    | .error r => (r, s)
    | .ok uid =>
      (⟨200, none, none, none, none, none, findUser s.users uid⟩, s)
  | .listDocs tok =>
    match authCheck s tok with
    | .error r => (r, s)
    | .ok uid => (listDocsHandler s uid, s)
  | .uploadDoc tok file cat =>
    match authCheck s tok with
    | .error r => (r, s)
    | .ok uid => uploadHandler s uid file cat env
  | .downloadDoc tok docId =>
    match authCheck s tok with
    | .error r => (r, s)
    | .ok uid => (downloadHandler s uid docId, s)
  | .previewDoc tok docId =>
    match authCheck s tok with
    | .error r => (r, s)
    | .ok uid => (previewHandler s uid docId, s)
  | .deleteDoc tok docId =>
    match authCheck s tok with
    | .error r => (r, s)
    | .ok uid => deleteHandler s uid docId

/-- The four category values of the schema's `documentCategories`. -/
def documentCategories : List String :=
  ["prescription", "test_result", "referral", "other"]

/- Concrete fixtures used by the witness theorems. -/

/-- Fixture: first user. -/
def uAlice : User := ⟨"u1", "alice@example.com", "Alice", "A", hashPw "pw1"⟩

/-- Fixture: second user. -/
def uBob : User := ⟨"u2", "bob@example.com", "Bob", "B", hashPw "pw2"⟩

/-- Fixture: a document owned by the first user. -/
def dAlice : Document :=
  ⟨"d1", "o1.pdf", "report.pdf", "uploads/o1.pdf", 3, "application/pdf",
    "other", "u1"⟩

/-- Fixture: a document owned by the second user. -/
def dBob : Document :=
  ⟨"d2", "o2.pdf", "scan.pdf", "uploads/o2.pdf", 4, "application/pdf",
    "referral", "u2"⟩

/-- Fixture: the stored object behind the first document. -/
def oAlice : StoredObject := ⟨"uploads/o1.pdf", [1, 2, 3]⟩

/-- Fixture: the stored object behind the second document. -/
def oBob : StoredObject := ⟨"uploads/o2.pdf", [4, 5, 6, 7]⟩

/-- Fixture: a token issued to the first user. -/
def tAlice : IssuedToken := ⟨"tokA", "u1", "alice@example.com"⟩

/-- Fixture: a token issued to the second user. -/
def tBob : IssuedToken := ⟨"tokB", "u2", "bob@example.com"⟩

/-- Fixture: a populated server state with two users owning one document
each. -/
def s0 : ServerState :=
  ⟨[uAlice, uBob], [dAlice, dBob], [oAlice, oBob], [tAlice, tBob]⟩

/-- Fixture: an environment whose object-store write succeeds. -/
def env0 : Env := ⟨"o9", "d9", "u9", "tok9", true⟩

/-- Fixture: an environment whose object-store write fails. -/
def envFail : Env := ⟨"o9", "d9", "u9", "tok9", false⟩

/-- Fixture: a well-formed PDF upload. -/
def pdfFile : UploadFile := ⟨"notes.pdf", "application/pdf", 5, [9, 9]⟩

/-- Claim C1: for an authenticated download request, a missing document row
yields 404; a document owned by another user yields 403 with no file bytes;
and when the requester owns the document the stored bytes are returned with
Content-Type application/pdf and an attachment Content-Disposition carrying
the (URI-encoded) original filename. -/
theorem download_access_control (s : ServerState) (tok : Option String)
    (uid docId : String) (env : Env)
    (hauth : authCheck s tok = .ok uid) :
    (getDocument s.documents docId = none →
      (step s (.downloadDoc tok docId) env).1.status = 404 ∧
      (step s (.downloadDoc tok docId) env).1.fileBytes = none) ∧
    (∀ d, getDocument s.documents docId = some d → d.userId ≠ uid →
      (step s (.downloadDoc tok docId) env).1.status = 403 ∧
      (step s (.downloadDoc tok docId) env).1.fileBytes = none) ∧
    (∀ d bs, getDocument s.documents docId = some d → d.userId = uid →
      lookupObject s.objects d.filepath = some bs →
      (step s (.downloadDoc tok docId) env).1.status = 200 ∧
      (step s (.downloadDoc tok docId) env).1.fileBytes = some bs ∧
      (step s (.downloadDoc tok docId) env).1.contentType =
        some "application/pdf" ∧
      (step s (.downloadDoc tok docId) env).1.contentDisposition =
        some ("attachment; filename=\"" ++
          encodeURIComponent d.originalFilename ++ "\"")) := by
  have hstep : step s (.downloadDoc tok docId) env =
      (downloadHandler s uid docId, s) := by
    simp [step, hauth]
  refine ⟨?_, ?_, ?_⟩
  · intro hnone
    rw [hstep]
    simp [downloadHandler, hnone, errResp]
  · intro d hd hne
    rw [hstep]
    simp [downloadHandler, hd, hne, errResp]
  · intro d bs hd hown hobj
    rw [hstep]
    simp [downloadHandler, hd, hown, hobj]

/-- Witness for C1 at the concrete fixture state: a missing id, the other
user's document, and the requester's own document. -/
theorem download_access_control_witness :
    ((step s0 (.downloadDoc (some "tokA") "missing") env0).1.status = 404) ∧
    ((step s0 (.downloadDoc (some "tokA") "d2") env0).1.status = 403 ∧
      (step s0 (.downloadDoc (some "tokA") "d2") env0).1.fileBytes = none) ∧
    ((step s0 (.downloadDoc (some "tokA") "d1") env0).1.status = 200 ∧
      (step s0 (.downloadDoc (some "tokA") "d1") env0).1.fileBytes =
        some [1, 2, 3] ∧
      (step s0 (.downloadDoc (some "tokA") "d1") env0).1.contentDisposition =
        some "attachment; filename=\"report.pdf\"") := by
  have h := download_access_control s0 (some "tokA") "u1" "missing" env0 rfl
  have h2 := download_access_control s0 (some "tokA") "u1" "d2" env0 rfl
  have h3 := download_access_control s0 (some "tokA") "u1" "d1" env0 rfl
  refine ⟨(h.1 (by decide)).1, h2.2.1 dBob (by decide) (by decide), ?_⟩
  have h3x := h3.2.2 dAlice [1, 2, 3] (by decide) (by decide) (by decide)
  exact ⟨h3x.1, h3x.2.1, by rw [h3x.2.2.2]; rfl⟩

/-- Claim C2: the authenticated document listing returns exactly the
documents whose userId is the requester's id. -/
theorem list_docs_owner_only (s : ServerState) (tok : Option String)
    (uid : String) (env : Env) (hauth : authCheck s tok = .ok uid) :
    ∃ ds, (step s (.listDocs tok) env).1.docs = some ds ∧
      ∀ d, d ∈ ds ↔ (d ∈ s.documents ∧ d.userId = uid) := by
  refine ⟨getDocumentsByUser s.documents uid, ?_, ?_⟩
  · simp [step, hauth, listDocsHandler]
  · intro d
    simp [getDocumentsByUser, List.mem_filter]

/-- Witness for C2 at the concrete fixture state: the first user's listing
is exactly their own document. -/
theorem list_docs_owner_only_witness :
    ∃ ds, (step s0 (.listDocs (some "tokA")) env0).1.docs = some ds ∧
      ∀ d, d ∈ ds ↔ (d ∈ s0.documents ∧ d.userId = "u1") :=
  list_docs_owner_only s0 (some "tokA") "u1" env0 rfl

/-- Fixture: a non-PDF upload. -/
def txtFile : UploadFile := ⟨"notes.txt", "text/plain", 5, [9]⟩

/-- A found document row is a member of the table and carries the looked-up
id. -/
theorem getDocument_spec (docs : List Document) (docId : String)
    (d : Document) (h : getDocument docs docId = some d) :
    d ∈ docs ∧ d.id = docId := by
  refine ⟨List.mem_of_find?_eq_some h, ?_⟩
  have := List.find?_some h
  simpa using this

/-- After `deleteObject`, the deleted path resolves to nothing. -/
theorem lookupObject_deleteObject (objs : List StoredObject) (p : String) :
    lookupObject (deleteObject objs p) p = none := by
  unfold lookupObject deleteObject
  have h : (objs.filter (fun o => !(o.path == p))).find?
      (fun o => o.path == p) = none := by
    rw [List.find?_eq_none]
    intro o ho
    have := (List.mem_filter.mp ho).2
    simpa using this
  rw [h]
  rfl

/-- Claim C3: a successful owner delete answers 200, removes the backing
object at the document's filepath, removes every row with that id, and the
document appears in no subsequent listing. -/
theorem delete_removes_row_and_object (s : ServerState) (tok : Option String)
    (uid docId : String) (env : Env) (d : Document)
    (hauth : authCheck s tok = .ok uid)
    (hdoc : getDocument s.documents docId = some d)
    (hown : d.userId = uid) :
    (step s (.deleteDoc tok docId) env).1.status = 200 ∧
    lookupObject (step s (.deleteDoc tok docId) env).2.objects d.filepath =
      none ∧
    getDocument (step s (.deleteDoc tok docId) env).2.documents docId =
      none ∧
    (∀ u2, d ∉
      getDocumentsByUser (step s (.deleteDoc tok docId) env).2.documents u2) := by
  obtain ⟨hmem, hid⟩ := getDocument_spec s.documents docId d hdoc
  have hstep : step s (.deleteDoc tok docId) env = deleteHandler s uid docId := by
    simp [step, hauth]
  have hdel : (deleteDocumentRow s.documents docId).1 = true := by
    unfold deleteDocumentRow
    rw [List.any_eq_true]
    exact ⟨d, hmem, by simp [hid]⟩
  have hhandler : deleteHandler s uid docId =
      (errResp 200 "Document deleted successfully",
        ⟨s.users, (deleteDocumentRow s.documents docId).2,
          deleteObject s.objects d.filepath, s.issued⟩) := by
    unfold deleteHandler
    rw [hdoc]
    simp [hown, hdel]
  rw [hstep, hhandler]
  refine ⟨rfl, lookupObject_deleteObject s.objects d.filepath, ?_, ?_⟩
  · unfold getDocument deleteDocumentRow
    rw [List.find?_eq_none]
    intro d2 hd2
    have := (List.mem_filter.mp hd2).2
    simpa using this
  · intro u2 hmem2
    have hin : d ∈ (deleteDocumentRow s.documents docId).2 :=
      (List.mem_filter.mp hmem2).1
    have := (List.mem_filter.mp hin).2
    simp [hid] at this

/-- Witness for C3: the first user deletes their own document in the
fixture state. -/
theorem delete_removes_row_and_object_witness :
    (step s0 (.deleteDoc (some "tokA") "d1") env0).1.status = 200 ∧
    lookupObject (step s0 (.deleteDoc (some "tokA") "d1") env0).2.objects
      "uploads/o1.pdf" = none ∧
    getDocument (step s0 (.deleteDoc (some "tokA") "d1") env0).2.documents
      "d1" = none ∧
    (∀ u2, dAlice ∉
      getDocumentsByUser
        (step s0 (.deleteDoc (some "tokA") "d1") env0).2.documents u2) :=
  delete_removes_row_and_object s0 (some "tokA") "u1" "d1" env0 dAlice
    rfl rfl rfl

/-- Claim C4: an authenticated upload whose file has MIME type
application/pdf and a .pdf extension (and passes the size limit, with the
store succeeding) is answered 201 with a new document row appended; a file
failing the PDF check is answered 400 with message "Only PDF files are
allowed" and the state is unchanged. -/
theorem upload_pdf_filter (s : ServerState) (tok : Option String)
    (uid : String) (f : UploadFile) (cat : Option String) (env : Env)
    (hauth : authCheck s tok = .ok uid) :
    (f.mimetype = "application/pdf" →
      lowerString (extname f.originalname) = ".pdf" →
      f.size ≤ maxFileSize → env.storeOk = true →
      (step s (.uploadDoc tok (some f) cat) env).1.status = 201 ∧
      ∃ nd, (step s (.uploadDoc tok (some f) cat) env).2.documents =
        s.documents ++ [nd]) ∧
    (¬ (f.mimetype = "application/pdf" ∧
        lowerString (extname f.originalname) = ".pdf") →
      (step s (.uploadDoc tok (some f) cat) env).1.status = 400 ∧
      (step s (.uploadDoc tok (some f) cat) env).1.message =
        some "Only PDF files are allowed" ∧
      (step s (.uploadDoc tok (some f) cat) env).2 = s) := by
  have hstep : step s (.uploadDoc tok (some f) cat) env =
      uploadHandler s uid (some f) cat env := by
    simp [step, hauth]
  constructor
  · intro hm he hsz hst
    have hff : fileFilter f = true := by simp [fileFilter, hm, he]
    have hlt : ¬ (maxFileSize < f.size) := Nat.not_lt.mpr hsz
    rw [hstep]
    unfold uploadHandler
    simp only [hff, hst, Bool.not_true, if_neg hlt]
    exact ⟨rfl, _, rfl⟩
  · intro hne
    have hff : fileFilter f = false := by
      rcases not_and_or.mp hne with h | h <;> simp [fileFilter, h]
    rw [hstep]
    unfold uploadHandler
    simp [hff, errResp]

/-- Witness for C4: the fixture PDF is accepted and the fixture text file
rejected, both at the fixture state. -/
theorem upload_pdf_filter_witness :
    ((step s0 (.uploadDoc (some "tokA") (some pdfFile) (some "other"))
        env0).1.status = 201 ∧
      ∃ nd,
        (step s0 (.uploadDoc (some "tokA") (some pdfFile) (some "other"))
          env0).2.documents = s0.documents ++ [nd]) ∧
    ((step s0 (.uploadDoc (some "tokA") (some txtFile) (some "other"))
        env0).1.status = 400 ∧
      (step s0 (.uploadDoc (some "tokA") (some txtFile) (some "other"))
        env0).1.message = some "Only PDF files are allowed" ∧
      (step s0 (.uploadDoc (some "tokA") (some txtFile) (some "other"))
        env0).2 = s0) := by
  constructor
  · exact (upload_pdf_filter s0 (some "tokA") "u1" pdfFile (some "other")
      env0 rfl).1 rfl (by decide) (by decide) rfl
  · exact (upload_pdf_filter s0 (some "tokA") "u1" txtFile (some "other")
      env0 rfl).2 (by decide)

/-- Claim C5: when the object-store write fails during an authenticated
upload of an otherwise acceptable file, the response is 500 and the server
state — in particular the documents table — is unchanged. -/
theorem upload_store_failure_no_insert (s : ServerState)
    (tok : Option String) (uid : String) (f : UploadFile)
    (cat : Option String) (env : Env)
    (hauth : authCheck s tok = .ok uid) (hff : fileFilter f = true)
    (hsz : f.size ≤ maxFileSize) (hst : env.storeOk = false) :
    (step s (.uploadDoc tok (some f) cat) env).1.status = 500 ∧
    (step s (.uploadDoc tok (some f) cat) env).2 = s := by
  have hstep : step s (.uploadDoc tok (some f) cat) env =
      uploadHandler s uid (some f) cat env := by
    simp [step, hauth]
  have hlt : ¬ (maxFileSize < f.size) := Nat.not_lt.mpr hsz
  rw [hstep]
  unfold uploadHandler
  simp [hff, hst, if_neg hlt, errResp]

/-- Witness for C5: the fixture PDF uploaded while the store fails leaves
the fixture state unchanged with a 500. -/
theorem upload_store_failure_no_insert_witness :
    (step s0 (.uploadDoc (some "tokA") (some pdfFile) none)
      envFail).1.status = 500 ∧
    (step s0 (.uploadDoc (some "tokA") (some pdfFile) none) envFail).2 = s0 :=
  upload_store_failure_no_insert s0 (some "tokA") "u1" pdfFile none envFail
    rfl (by decide) (by decide) rfl

/-- The documents table after any step is the old table, the old table
with one appended row, or the old table with one id filtered out. -/
theorem step_documents_shape (s : ServerState) (req : Request) (env : Env) :
    (step s req env).2.documents = s.documents ∨
    (∃ nd, (step s req env).2.documents = s.documents ++ [nd]) ∨
    (∃ docId, (step s req env).2.documents =
      s.documents.filter (fun d => !(d.id == docId)) ∧
      ∃ tok, req = .deleteDoc tok docId) := by
  cases req <;>
    simp only [step, signupHandler, loginHandler, uploadHandler,
      deleteHandler, listDocsHandler, authCheck, errResp,
      deleteDocumentRow] <;>
    (repeat' split) <;>
    first
      | exact Or.inl rfl
      | exact Or.inr (Or.inl ⟨_, rfl⟩)
      | exact Or.inr (Or.inr ⟨_, rfl, _, rfl⟩)
      | simp

/-- Claim C6: documents are immutable except for deletion — any document
row present before a request is still present, unchanged, afterwards,
unless the request was a DELETE of that very document id. -/
theorem documents_immutable (s : ServerState) (req : Request) (env : Env)
    (d : Document) (hd : d ∈ s.documents) :
    d ∈ (step s req env).2.documents ∨
    ∃ tok, req = Request.deleteDoc tok d.id := by
  rcases step_documents_shape s req env with h | ⟨nd, h⟩ | ⟨docId, h, tok, hreq⟩
  · exact Or.inl (h ▸ hd)
  · exact Or.inl (h ▸ List.mem_append_left _ hd)
  · by_cases hid : d.id = docId
    · exact Or.inr ⟨tok, hid ▸ hreq⟩
    · refine Or.inl ?_
      rw [h]
      exact List.mem_filter.mpr ⟨hd, by simp [hid]⟩

/-- Witness for C6: the fixture state's first document survives the second
user's upload unchanged. -/
theorem documents_immutable_witness :
    dAlice ∈
      (step s0 (.uploadDoc (some "tokB") (some pdfFile) none)
        env0).2.documents ∨
    ∃ tok, Request.uploadDoc (some "tokB") (some pdfFile) none =
      Request.deleteDoc tok dAlice.id :=
  documents_immutable s0 (.uploadDoc (some "tokB") (some pdfFile) none) env0
    dAlice (by decide)

/-- A failed auth check is a 401. -/
theorem authCheck_error_status (s : ServerState) (tok : Option String)
    (r : Response) (h : authCheck s tok = .error r) : r.status = 401 := by
  unfold authCheck at h
  split at h
  · injection h with h2
    rw [← h2]
    rfl
  · split at h
    · injection h with h2
      rw [← h2]
      rfl
    · exact Except.noConfusion h

/-- Statuses of the download handler body. -/
theorem downloadHandler_status (s : ServerState) (uid docId : String) :
    (downloadHandler s uid docId).status = 404 ∨
    (downloadHandler s uid docId).status = 403 ∨
    (downloadHandler s uid docId).status = 200 := by
  unfold downloadHandler
  (repeat' split) <;> simp [errResp]

/-- Statuses of the preview handler body. -/
theorem previewHandler_status (s : ServerState) (uid docId : String) :
    (previewHandler s uid docId).status = 404 ∨
    (previewHandler s uid docId).status = 403 ∨
    (previewHandler s uid docId).status = 200 := by
  unfold previewHandler
  (repeat' split) <;> simp [errResp]

/-- Statuses of the upload pipeline. -/
theorem uploadHandler_status (s : ServerState) (uid : String)
    (file : Option UploadFile) (cat : Option String) (env : Env) :
    (uploadHandler s uid file cat env).1.status = 400 ∨
    (uploadHandler s uid file cat env).1.status = 500 ∨
    (uploadHandler s uid file cat env).1.status = 201 := by
  unfold uploadHandler
  (repeat' split) <;> simp [errResp]

/-- Statuses of the delete handler body. -/
theorem deleteHandler_status (s : ServerState) (uid docId : String) :
    (deleteHandler s uid docId).1.status = 404 ∨
    (deleteHandler s uid docId).1.status = 403 ∨
    (deleteHandler s uid docId).1.status = 200 ∨
    (deleteHandler s uid docId).1.status = 500 := by
  unfold deleteHandler
  dsimp only
  (repeat' split) <;> simp [errResp]

/-- Statuses of the signup endpoint. -/
theorem signupHandler_status (s : ServerState) (e p fn ln : String)
    (env : Env) :
    (signupHandler s e p fn ln env).1.status = 400 ∨
    (signupHandler s e p fn ln env).1.status = 201 := by
  unfold signupHandler
  (repeat' split) <;> simp [errResp]

/-- Statuses of the login endpoint. -/
theorem loginHandler_status (s : ServerState) (e p : String) (env : Env) :
    (loginHandler s e p env).1.status = 400 ∨
    (loginHandler s e p env).1.status = 401 ∨
    (loginHandler s e p env).1.status = 200 := by
  unfold loginHandler
  (repeat' split) <;> simp [errResp]

/-- Every response of the API carries one of the status codes 200, 201,
400, 401, 403, 404, 500. -/
theorem step_status_mem (s : ServerState) (req : Request) (env : Env) :
    (step s req env).1.status = 200 ∨ (step s req env).1.status = 201 ∨
    (step s req env).1.status = 400 ∨ (step s req env).1.status = 401 ∨
    (step s req env).1.status = 403 ∨ (step s req env).1.status = 404 ∨
    (step s req env).1.status = 500 := by
  cases req
  case signup e p fn ln =>
    have := signupHandler_status s e p fn ln env
    simp only [step]
    omega
  case login e p =>
    have := loginHandler_status s e p env
    simp only [step]
    omega
  case logout =>
    simp [step, errResp]
  case getAuthUser tok =>
    rcases hac : authCheck s tok with r | uid
    · have := authCheck_error_status s tok r hac
      simp only [step, hac]
      omega
    · simp only [step, hac]
      simp
  case listDocs tok =>
    rcases hac : authCheck s tok with r | uid
    · have := authCheck_error_status s tok r hac
      simp only [step, hac]
      omega
    · simp only [step, hac, listDocsHandler]
      simp
  case uploadDoc tok file cat =>
    rcases hac : authCheck s tok with r | uid
    · have := authCheck_error_status s tok r hac
      simp only [step, hac]
      omega
    · have := uploadHandler_status s uid file cat env
      simp only [step, hac]
      omega
  case downloadDoc tok docId =>
    rcases hac : authCheck s tok with r | uid
    · have := authCheck_error_status s tok r hac
      simp only [step, hac]
      omega
    · have := downloadHandler_status s uid docId
      simp only [step, hac]
      omega
  case previewDoc tok docId =>
    rcases hac : authCheck s tok with r | uid
    · have := authCheck_error_status s tok r hac
      simp only [step, hac]
      omega
    · have := previewHandler_status s uid docId
      simp only [step, hac]
      omega
  case deleteDoc tok docId =>
    rcases hac : authCheck s tok with r | uid
    · have := authCheck_error_status s tok r hac
      simp only [step, hac]
      omega
    · have := deleteHandler_status s uid docId
      simp only [step, hac]
      omega

/-- Claim C8: every error response of the API carries one of the status
codes 400, 401, 403, 404, 500. -/
theorem error_status_codes (s : ServerState) (req : Request) (env : Env)
    (herr : 400 ≤ (step s req env).1.status) :
    (step s req env).1.status = 400 ∨ (step s req env).1.status = 401 ∨
    (step s req env).1.status = 403 ∨ (step s req env).1.status = 404 ∨
    (step s req env).1.status = 500 := by
  rcases step_status_mem s req env with h | h | h | h | h | h | h <;> omega

/-- Witness for C8: an unauthenticated listing's 401 is among the five
error codes. -/
theorem error_status_codes_witness :
    (step s0 (.listDocs none) env0).1.status = 400 ∨
    (step s0 (.listDocs none) env0).1.status = 401 ∨
    (step s0 (.listDocs none) env0).1.status = 403 ∨
    (step s0 (.listDocs none) env0).1.status = 404 ∨
    (step s0 (.listDocs none) env0).1.status = 500 :=
  error_status_codes s0 (.listDocs none) env0 (by decide)

/-- Referential integrity: every document's userId names an existing user
row. -/
def refIntegrity (s : ServerState) : Prop :=
  ∀ d ∈ s.documents, ∃ u ∈ s.users, u.id = d.userId

/-- Every issued token's userId names an existing user row. -/
def tokensValid (s : ServerState) : Prop :=
  ∀ t ∈ s.issued, ∃ u ∈ s.users, u.id = t.userId

/-- States reachable from the empty initial state by API requests. -/
inductive Reachable : ServerState → Prop where
  | init : Reachable ⟨[], [], [], []⟩
  | next (s : ServerState) (req : Request) (env : Env) :
      Reachable s → Reachable (step s req env).2

/-- A passing auth check names the userId of some issued token. -/
theorem authCheck_ok_issued (s : ServerState) (tok : Option String)
    (uid : String) (h : authCheck s tok = .ok uid) :
    ∃ it ∈ s.issued, it.userId = uid := by
  unfold authCheck at h
  split at h
  · exact Except.noConfusion h
  · split at h
    · exact Except.noConfusion h
    · rename_i it hfind
      injection h with h2
      exact ⟨it, List.mem_of_find?_eq_some hfind, h2⟩

/-- One step preserves token validity and referential integrity. -/
theorem inv_step (s : ServerState) (req : Request) (env : Env)
    (hts : tokensValid s) (hrs : refIntegrity s) :
    tokensValid (step s req env).2 ∧ refIntegrity (step s req env).2 := by
  cases req
  case signup e p fn ln =>
    simp only [step, signupHandler]
    split
    · exact ⟨hts, hrs⟩
    · split
      · exact ⟨hts, hrs⟩
      · constructor
        · intro t ht
          simp only [List.mem_append, List.mem_singleton] at ht
          rcases ht with ht | ht
          · obtain ⟨u, hu, hid⟩ := hts t ht
            exact ⟨u, by simp [List.mem_append, hu], hid⟩
          · subst ht
            exact ⟨⟨env.freshUserId, e, fn, ln, hashPw p⟩,
              by simp [List.mem_append], rfl⟩
        · intro d hd
          obtain ⟨u, hu, hid⟩ := hrs d hd
          exact ⟨u, by simp [List.mem_append, hu], hid⟩
  case login e p =>
    simp only [step, loginHandler]
    split
    · exact ⟨hts, hrs⟩
    · split
      · exact ⟨hts, hrs⟩
      · rename_i u hfind
        split
        · exact ⟨hts, hrs⟩
        · split
          · exact ⟨hts, hrs⟩
          · have humem : u ∈ s.users := by
              unfold findUserByEmail at hfind
              exact List.mem_of_find?_eq_some hfind
            refine ⟨?_, hrs⟩
            intro t ht
            simp only [List.mem_append, List.mem_singleton] at ht
            rcases ht with ht | ht
            · exact hts t ht
            · subst ht
              exact ⟨u, humem, rfl⟩
  case logout => exact ⟨hts, hrs⟩
  case getAuthUser tok =>
    rcases hac : authCheck s tok with r | uid <;> simp only [step, hac] <;>
      exact ⟨hts, hrs⟩
  case listDocs tok =>
    rcases hac : authCheck s tok with r | uid <;> simp only [step, hac] <;>
      exact ⟨hts, hrs⟩
  case uploadDoc tok file cat =>
    rcases hac : authCheck s tok with r | uid
    · simp only [step, hac]
      exact ⟨hts, hrs⟩
    · simp only [step, hac]
      obtain ⟨it, hit, hituid⟩ := authCheck_ok_issued s tok uid hac
      obtain ⟨u, hu, huid⟩ := hts it hit
      unfold uploadHandler
      cases file with
      | none => exact ⟨hts, hrs⟩
      | some f =>
        dsimp only
        split
        · exact ⟨hts, hrs⟩
        · split
          · exact ⟨hts, hrs⟩
          · split
            · exact ⟨hts, hrs⟩
            · refine ⟨hts, ?_⟩
              intro d hd
              simp only [List.mem_append, List.mem_singleton] at hd
              rcases hd with hd | hd
              · exact hrs d hd
              · subst hd
                exact ⟨u, hu, by rw [huid, hituid]⟩
  case downloadDoc tok docId =>
    rcases hac : authCheck s tok with r | uid <;> simp only [step, hac] <;>
      exact ⟨hts, hrs⟩
  case previewDoc tok docId =>
    rcases hac : authCheck s tok with r | uid <;> simp only [step, hac] <;>
      exact ⟨hts, hrs⟩
  case deleteDoc tok docId =>
    rcases hac : authCheck s tok with r | uid
    · simp only [step, hac]
      exact ⟨hts, hrs⟩
    · simp only [step, hac]
      unfold deleteHandler
      dsimp only
      (repeat' split) <;>
        first
          | exact ⟨hts, hrs⟩
          | exact ⟨hts, fun d hd => hrs d (List.mem_filter.mp hd).1⟩

/-- Claim C7: in every reachable server state, every document's userId
references an existing user row. -/
theorem reachable_ref_integrity (s : ServerState) (h : Reachable s) :
    refIntegrity s := by
  have main : tokensValid s ∧ refIntegrity s := by
    induction h with
    | init =>
      constructor
      · intro t ht
        simp at ht
      · intro d hd
        simp at hd
    | next s2 req env _ ih => exact inv_step s2 req env ih.1 ih.2
  exact main.2

/-- Fixture: the environment used to build a small reachable state. -/
def envReach : Env := ⟨"objR", "docR", "userR", "tokR", true⟩

/-- Fixture: the empty initial state. -/
def sInit : ServerState := ⟨[], [], [], []⟩

/-- Fixture: the state after one signup. -/
def sReach1 : ServerState :=
  (step sInit (.signup "a@x.com" "pw" "A" "B") envReach).2

/-- Fixture: the state after that user uploads one PDF. -/
def sReach2 : ServerState :=
  (step sReach1 (.uploadDoc (some "tokR") (some pdfFile) none) envReach).2

/-- Witness for C7: referential integrity holds at a concrete state reached
by a signup followed by an upload. -/
theorem reachable_ref_integrity_witness : refIntegrity sReach2 :=
  reachable_ref_integrity sReach2
    (Reachable.next sReach1 (.uploadDoc (some "tokR") (some pdfFile) none)
      envReach
      (Reachable.next sInit (.signup "a@x.com" "pw" "A" "B") envReach
        Reachable.init))

/-- Fixture: an oversized non-PDF upload. -/
def bigTxt : UploadFile := ⟨"big.txt", "text/plain", 10 * 1024 * 1024 + 1, []⟩

/-- Fixture: an oversized PDF upload. -/
def bigPdf : UploadFile :=
  ⟨"big.pdf", "application/pdf", 10 * 1024 * 1024 + 1, []⟩

/-- Counterexample to C9 as stated: an authenticated upload of an oversized
file that is not a PDF is answered with the fileFilter message, not the
size message, because multer consults fileFilter before the file stream can
trip the size limit. -/
theorem oversize_nonpdf_gets_filter_message :
    maxFileSize < bigTxt.size ∧
    (step s0 (.uploadDoc (some "tokA") (some bigTxt) none) env0).1.message ≠
      some "File size must be less than 10MB" ∧
    (step s0 (.uploadDoc (some "tokA") (some bigTxt) none) env0).1.message =
      some "Only PDF files are allowed" :=
  ⟨by decide, by decide, by decide⟩

/-- Claim C9 (amended): an authenticated upload that passes the PDF filter
and exceeds 10 * 1024 * 1024 bytes is rejected with 400 and message "File
size must be less than 10MB" leaving the state unchanged, and a file of at
most that size is never rejected with the size message. -/
theorem upload_size_limit (s : ServerState) (tok : Option String)
    (uid : String) (f : UploadFile) (cat : Option String) (env : Env)
    (hauth : authCheck s tok = .ok uid) (hff : fileFilter f = true) :
    (maxFileSize < f.size →
      (step s (.uploadDoc tok (some f) cat) env).1.status = 400 ∧
      (step s (.uploadDoc tok (some f) cat) env).1.message =
        some "File size must be less than 10MB" ∧
      (step s (.uploadDoc tok (some f) cat) env).2 = s) ∧
    (f.size ≤ maxFileSize →
      (step s (.uploadDoc tok (some f) cat) env).1.message ≠
        some "File size must be less than 10MB") := by
  have hstep : step s (.uploadDoc tok (some f) cat) env =
      uploadHandler s uid (some f) cat env := by
    simp [step, hauth]
  constructor
  · intro hlt
    rw [hstep]
    unfold uploadHandler
    simp [hff, hlt, errResp]
  · intro hle
    have hlt : ¬ (maxFileSize < f.size) := Nat.not_lt.mpr hle
    rw [hstep]
    unfold uploadHandler
    dsimp only
    simp only [hff, Bool.not_true, Bool.false_eq_true, if_false, if_neg hlt]
    split <;> simp [errResp]

/-- Witness for C9 (amended): the oversized fixture PDF is rejected with
the size message, and the small fixture PDF is not. -/
theorem upload_size_limit_witness :
    ((step s0 (.uploadDoc (some "tokA") (some bigPdf) none) env0).1.status =
        400 ∧
      (step s0 (.uploadDoc (some "tokA") (some bigPdf) none) env0).1.message =
        some "File size must be less than 10MB" ∧
      (step s0 (.uploadDoc (some "tokA") (some bigPdf) none) env0).2 = s0) ∧
    (step s0 (.uploadDoc (some "tokA") (some pdfFile) none) env0).1.message ≠
      some "File size must be less than 10MB" := by
  constructor
  · exact (upload_size_limit s0 (some "tokA") "u1" bigPdf none env0 rfl
      (by decide)).1 (by decide)
  · exact (upload_size_limit s0 (some "tokA") "u1" pdfFile none env0 rfl
      (by decide)).2 (by decide)

/-- Claim C10: for an accepted upload the stored category is the request
body's category string verbatim for any non-empty string — no enum check —
and "other" when the category is absent; the handler's falsy default also
maps the empty string to "other". -/
theorem upload_category_verbatim (s : ServerState) (tok : Option String)
    (uid : String) (f : UploadFile) (cat : Option String) (env : Env)
    (hauth : authCheck s tok = .ok uid) (hff : fileFilter f = true)
    (hsz : f.size ≤ maxFileSize) (hst : env.storeOk = true) :
    ∃ nd, (step s (.uploadDoc tok (some f) cat) env).2.documents =
        s.documents ++ [nd] ∧
      (∀ c, cat = some c → c ≠ "" → nd.category = c) ∧
      (cat = none → nd.category = "other") ∧
      (cat = some "" → nd.category = "other") := by
  have hstep : step s (.uploadDoc tok (some f) cat) env =
      uploadHandler s uid (some f) cat env := by
    simp [step, hauth]
  have hlt : ¬ (maxFileSize < f.size) := Nat.not_lt.mpr hsz
  rw [hstep]
  unfold uploadHandler
  dsimp only
  simp only [hff, hst, Bool.not_true, Bool.not_false, Bool.false_eq_true,
    if_false, if_neg hlt, if_true]
  refine ⟨_, rfl, ?_, ?_, ?_⟩
  · intro c hc hne
    subst hc
    simp [hne]
  · intro hc
    subst hc
    rfl
  · intro hc
    subst hc
    rfl

/-- Witness for C10: a category outside the schema's enum is stored
verbatim. -/
theorem upload_category_verbatim_witness :
    (∃ nd,
      (step s0 (.uploadDoc (some "tokA") (some pdfFile) (some "bogus"))
        env0).2.documents = s0.documents ++ [nd] ∧
      nd.category = "bogus") ∧
    "bogus" ∉ documentCategories := by
  constructor
  · obtain ⟨nd, hnd, hv, h2, h3⟩ := upload_category_verbatim s0 (some "tokA")
      "u1" pdfFile (some "bogus") env0 rfl (by decide) (by decide) rfl
    exact ⟨nd, hnd, hv "bogus" rfl (by decide)⟩
  · decide

end AssetManager
